import Mathlib

/-!
Verification of the document structural-analysis and template-generation layer
of the DOCX-to-LaTeX conversion system.

The frontend TypeScript layer (types/document.ts, components/LatexViewer.tsx,
components/AnalysisViewer.tsx, components/DocumentUploader.tsx) is embedded
directly.  The backend processing services (structural analyzer, author
resolver, equation resolver, boundary engine, validator) are not present in
the repository snapshot; where a claim depends on them they are modelled from
the specification, and each such definition is marked in its doc comment.

Floating-point confidence values are modelled as rationals; JavaScript string
operations are modelled over the character list carried by a Lean string.
-/

namespace DocxAnalyzer

/-! ### Character-list string helpers

These model the string primitives used by the code (lower/upper casing,
suffix test, splitting, trimming) over `List Char`, the data of a `String`. -/

/-- Lowercase every character, as JavaScript toLowerCase does on ASCII. -/
def lowerChars (cs : List Char) : List Char := cs.map Char.toLower

/-- Uppercase every character, as JavaScript toUpperCase does on ASCII. -/
def upperChars (cs : List Char) : List Char := cs.map Char.toUpper

/-- Strip leading and trailing spaces from a character list. -/
def trimChars (cs : List Char) : List Char :=
  ((cs.dropWhile (fun c => c = ' ')).reverse.dropWhile (fun c => c = ' ')).reverse

/-- Split a character list on a separator character; the separator is dropped
and each occurrence starts a new field. -/
def splitOnChar (sep : Char) : List Char → List (List Char)
  | [] => [[]]
  | c :: rest =>
    match splitOnChar sep rest with
    | [] => [[c]]
    | cur :: parts =>
      if c = sep then [] :: cur :: parts else (c :: cur) :: parts

/-- Drop everything up to and including the first colon: the field content
that follows a label such as a name or mail label. -/
def dropLabel (cs : List Char) : List Char :=
  match cs.dropWhile (fun c => c ≠ ':') with
  | [] => []
  | _ :: rest => rest

/-- Count the occurrences of a pattern inside a character list. -/
def countInfix (pat : List Char) : List Char → Nat
  | [] => 0
  | c :: rest =>
    (if pat.isPrefixOf (c :: rest) then 1 else 0) + countInfix pat rest

/-- Whether a pattern occurs anywhere inside a character list. -/
def hasInfix (pat : List Char) : List Char → Bool
  | [] => pat.isPrefixOf []
  | c :: rest => pat.isPrefixOf (c :: rest) || hasInfix pat rest

/-! ### Data model (types/document.ts) -/

/-- The template identifier union type from types/document.ts:
`LatexTemplate = 'ieee' | 'acm' | 'springer'`. -/
inductive LatexTemplate where
  | ieee
  | acm
  | springer
deriving DecidableEq, Repr

/-- The string value carried by each member of the `LatexTemplate` union. -/
def LatexTemplate.id : LatexTemplate → String
  | .ieee => "ieee"
  | .acm => "acm"
  | .springer => "springer"

/-- `DetectedElement` from types/document.ts: base shape for
title/abstract/keywords with a confidence score and reasoning. -/
structure DetectedElement where
  content : String
  confidence : ℚ
  reasoning : String
  word_style : Option String := none
  paragraph_index : Option Nat := none
deriving DecidableEq, Repr

/-- `AuthorInfo` from types/document.ts. -/
structure AuthorInfo where
  names : List String
  affiliations : List String
  emails : List String
  corresponding_indices : List Nat
  orcids : List String
deriving DecidableEq, Repr

/-- `Section` from types/document.ts. -/
structure Section where
  id : Nat
  number : Option String := none
  title : String
  content : String
  level : Nat
  confidence : ℚ
  word_count : Nat
  paragraph_start : Option Nat := none
  paragraph_end : Option Nat := none
  has_subsections : Bool
  contains_equations : List Nat := []
  contains_tables : List Nat := []
  contains_lists : List Nat := []
deriving DecidableEq, Repr

/-- `DocumentList` from types/document.ts (items elided to their count-
relevant shape is not needed by any claim, so items are plain strings). -/
structure DocumentList where
  id : Nat
  items : List String
  confidence : ℚ
  is_nested : Bool
  max_depth : Nat
deriving DecidableEq, Repr

/-- `DocumentTable` from types/document.ts (cells as a text grid). -/
structure DocumentTable where
  id : Nat
  rows : Nat
  columns : Nat
  cells : List (List String)
  caption : Option String := none
  confidence : ℚ
  has_headers : Bool
deriving DecidableEq, Repr

/-- `Equation` from types/document.ts. -/
structure Equation where
  id : Nat
  content : String
  latex_equivalent : Option String := none
  confidence : ℚ
  paragraph_index : Option Nat := none
  is_display : Bool
  variable_names : List String := []
deriving DecidableEq, Repr

/-- `DocumentAnalysis` from types/document.ts: the aggregate root consumed by
the template generator. -/
structure DocumentAnalysis where
  filename : String
  file_size : Nat
  title : Option DetectedElement := none
  authors : Option AuthorInfo := none
  abstract : Option DetectedElement := none
  keywords : Option DetectedElement := none
  sections : List Section
  lists : List DocumentList
  tables : List DocumentTable
  equations : List Equation
  total_paragraphs : Nat
  total_words : Nat
  confidence_score : ℚ
deriving DecidableEq, Repr

/-- `LatexOutput` from types/document.ts: the record returned by generation
to the rendering/serving collaborator. -/
structure LatexOutput where
  content : String
  template : LatexTemplate
  sections_count : Nat
  tables_count : Nat
  equations_count : Nat
  lists_count : Nat
  validation_warnings : List String
  generation_time : ℚ
deriving DecidableEq, Repr

/-! ### Template catalog helpers (components/LatexViewer.tsx) -/

/-- From LatexViewer.tsx `getTemplateName`: lookup of the human-readable
template name, falling back to the uppercased input for unknown ids. -/
def getTemplateName (template : String) : String :=
  if template = "ieee" then "IEEE Conference Paper"
  else if template = "acm" then "ACM Conference Paper"
  else if template = "springer" then "Springer Nature Journal"
  else ⟨upperChars template.data⟩

/-- From LatexViewer.tsx `getTemplateDescription`: lookup of the template
description, falling back to a generic description for unknown ids. -/
def getTemplateDescription (template : String) : String :=
  if template = "ieee" then
    "Standard IEEE conference paper format with two-column layout and proper citation style."
  else if template = "acm" then
    "ACM conference paper format with modern styling and author affiliations."
  else if template = "springer" then
    "Springer Nature journal article format with comprehensive mathematical typesetting support."
  else "LaTeX document template"

/-- From LatexViewer.tsx `getTemplateFeatures`: lookup of the feature tags,
falling back to a one-element list for unknown ids. -/
def getTemplateFeatures (template : String) : List String :=
  if template = "ieee" then
    ["Two-column layout", "IEEE citation style", "Conference format"]
  else if template = "acm" then
    ["Modern styling", "Author affiliations", "ACM citation style"]
  else if template = "springer" then
    ["Journal format", "Mathematical typesetting", "Algorithm support"]
  else ["Custom template"]

/-! ### Upload validation (components/DocumentUploader.tsx) -/

/-- Outcome of the upload handler in DocumentUploader.tsx: it either records
an error message and returns, or proceeds to the upload request. -/
inductive UploadAction where
  | setError (msg : String)
  | upload
deriving DecidableEq, Repr

/-- The required filename suffix checked by the upload handler. -/
def docxSuffix : String := ".docx"

/-- The error message shown for a non-docx filename. -/
def fileTypeErrorMsg : String := "Please upload a .docx file"

/-- The error message shown for an oversize file. -/
def fileSizeErrorMsg : String := "File size must be less than 50MB"

/-- From DocumentUploader.tsx `handleFileUpload`: the file-type check
(lowercased name must end in ".docx") runs first, then the 50MB size check;
only a file passing both reaches `uploadDocument`. -/
def handleFileUpload (name : String) (size : Nat) : UploadAction :=
  if !(docxSuffix.data.isSuffixOf (lowerChars name.data)) then
    UploadAction.setError fileTypeErrorMsg
  else if size > 50 * 1024 * 1024 then
    UploadAction.setError fileSizeErrorMsg
  else
    UploadAction.upload

/-! ### Confidence bar (components/AnalysisViewer.tsx) -/

/-- Rounding as performed by JavaScript Math.round on the values in range
here: floor of the argument plus one half. -/
def jsRound (q : ℚ) : ℤ := ⌊q + mkRat 1 2⌋

/-- From AnalysisViewer.tsx `renderConfidenceBar`: the displayed percentage,
`Math.round(confidence * 100)`. -/
def confidencePercentage (c : ℚ) : ℤ := jsRound (c * 100)

/-- From AnalysisViewer.tsx `renderConfidenceBar`: the level class,
`confidence >= 0.8 ? 'high' : confidence >= 0.6 ? 'medium' : 'low'`. -/
def confidenceLevel (c : ℚ) : String :=
  if c ≥ mkRat 4 5 then "high"
  else if c ≥ mkRat 3 5 then "medium"
  else "low"

/-! ### Boundary engine (modelled from the spec) -/

/-- Modelled from the spec: the enhanced backend Section model of the
boundary engine (backend/app/models/document.py, absent from src/), carrying
the line-index range assigned to a section. -/
structure SectionBoundary where
  start_line_index : Nat
  end_line_index : Nat
deriving DecidableEq, Repr

/-- Modelled from the spec: the boundary-assignment step of the Boundary &
Placeholder Engine (backend document_processor, absent from src/).  Each
section starts at its heading line; it ends just before the next heading, or
at the document end for the last section. -/
def assignBoundaries : List Nat → Nat → List SectionBoundary
  | [], _ => []
  | [h], docEnd => [⟨h, docEnd⟩]
  | h :: h2 :: rest, docEnd => ⟨h, h2 - 1⟩ :: assignBoundaries (h2 :: rest) docEnd

/-! ### Equation resolver merge step (modelled from the spec) -/

/-- The four equation-detection methods, in the priority order used for
merge tie-breaking: markup > delimiter > contextual > symbol heuristic. -/
inductive DetectorMethod where
  | markup
  | delimiter
  | contextual
  | symbolHeuristic
deriving DecidableEq, Repr

/-- Numeric tie-break priority of a detection method. -/
def methodPriority : DetectorMethod → Nat
  | .markup => 3
  | .delimiter => 2
  | .contextual => 1
  | .symbolHeuristic => 0

/-- An equation candidate reported by one detector: normalized canonical
content, paragraph position, confidence, and the producing method. -/
structure EqCandidate where
  canonical : String
  position : Nat
  confidence : ℚ
  method : DetectorMethod
deriving DecidableEq, Repr

/-- Two candidates fall in the same merge group when their canonical content
is identical and their positions are the same or adjacent paragraphs. -/
def sameGroupB (a b : EqCandidate) : Bool :=
  (a.canonical == b.canonical) &&
    ((a.position == b.position) ||
     (a.position + 1 == b.position) ||
     (b.position + 1 == a.position))

/-- Whether candidate `a` beats candidate `b`: strictly higher confidence,
or equal confidence and strictly higher detector priority. -/
def betterB (a b : EqCandidate) : Bool :=
  decide (b.confidence < a.confidence) ||
    (decide (a.confidence = b.confidence) &&
     decide (methodPriority b.method < methodPriority a.method))

/-- Recursion core of the merge step, structured on a fuel bound that the
caller instantiates with the candidate count (every recursive call strictly
shrinks the list, so the fuel never runs out). -/
def mergeCandidatesAux : Nat → List EqCandidate → List EqCandidate
  | _, [] => []
  | 0, _ :: _ => []
  | fuel + 1, c :: rest =>
    (rest.filter (fun d => sameGroupB c d)).foldl
        (fun best d => if betterB d best then d else best) c ::
      mergeCandidatesAux fuel (rest.filter (fun d => !sameGroupB c d))

/-- Modelled from the spec: the single-threaded merge step of the Equation
Resolver (backend `_deduplicate_equations`, absent from src/).  Candidates are
grouped by canonical content and positional proximity; within a group the
single best candidate is kept, tagged with the winning method. -/
def mergeCandidates (l : List EqCandidate) : List EqCandidate :=
  mergeCandidatesAux l.length l

/-! ### Author resolver, structured strategy (modelled from the spec) -/

/-- Split a labelled line into its semicolon-separated, trimmed fields. -/
def splitFields (cs : List Char) : List (List Char) :=
  (splitOnChar ';' (dropLabel cs)).map trimChars

/-- Whether a raw email field carries the trailing corresponding-author
marker character. -/
def hasMarker (cs : List Char) : Bool :=
  cs.getLast? == some '*'

/-- Strip the trailing corresponding-author marker from an email field. -/
def stripMarker (cs : List Char) : List Char :=
  if hasMarker cs then cs.dropLast else cs

/-- Modelled from the spec: the structured author-detection strategy
(backend `_detect_authors_structured`, absent from src/) applied to a name
line and a mail line.  Fields are split on semicolons and index-aligned; a
trailing asterisk on the k-th email flags index k as corresponding and is
stripped from the stored email. -/
def detectAuthorsStructured (nameLine mailLine : String) : AuthorInfo :=
  let names := splitFields nameLine.data
  let rawMails := splitFields mailLine.data
  { names := names.map (fun cs => ⟨cs⟩)
    affiliations := []
    emails := rawMails.map (fun cs => ⟨stripMarker cs⟩)
    corresponding_indices :=
      rawMails.enum.filterMap (fun p => if hasMarker p.2 then some p.1 else none)
    orcids := [] }

/-! ### Structural analyzer output assembly (modelled from the spec) -/

/-- A raw detection candidate before assembly: content, an unclamped score
from the combined heuristics, and the reasoning string. -/
structure RawCandidate where
  content : String
  rawConfidence : ℚ
  reasoning : String
deriving DecidableEq, Repr

/-- Confidence scores are kept inside the unit interval. -/
def clampConfidence (c : ℚ) : ℚ := max 0 (min 1 c)

/-- Modelled from the spec: the Structural Analyzer's failure policy (backend
document_processor, absent from src/): every detection outcome — including a
low-confidence `DetectionAmbiguous` one — is returned as an element carrying
its score and reasoning; nothing is filtered out by the analyzer itself. -/
def assembleElements (cands : List RawCandidate) : List DetectedElement :=
  cands.map (fun c =>
    { content := c.content
      confidence := clampConfidence c.rawConfidence
      reasoning := c.reasoning })

/-! ### Validator (modelled from the spec) -/

/-- The opening token of a LaTeX environment. -/
def beginToken : String := "\\begin\x7b"

/-- The closing token of a LaTeX environment. -/
def endToken : String := "\\end\x7b"

/-- Leftover placeholder-token prefixes checked by the validator. -/
def placeholderTokens : List String := ["[TABLE_", "[EQUATION_", "[LIST_"]

/-- Balanced grouping: as many opening as closing braces. -/
def bracesBalanced (s : String) : Bool :=
  s.data.count '\x7b' == s.data.count '\x7d'

/-- Balanced environments: as many begin tokens as end tokens. -/
def envsBalanced (s : String) : Bool :=
  countInfix beginToken.data s.data == countInfix endToken.data s.data

/-- Whether any placeholder token is left in the text. -/
def hasPlaceholder (s : String) : Bool :=
  placeholderTokens.any (fun p => hasInfix p.data s.data)

/-- The three warning messages the validator can emit. -/
def braceWarning : String := "Unbalanced braces detected"

/-- Warning emitted for unbalanced environments. -/
def envWarning : String := "Unbalanced environments detected"

/-- Warning emitted for leftover placeholder tokens. -/
def placeholderWarning : String := "Unresolved placeholder tokens remain"

/-- Modelled from the spec: the `validate` operation of the template
generator (backend template_validator, absent from src/).  It performs the
structural checks and returns a — possibly empty — list of textual warnings;
as a total function it never raises. -/
def validateLatexContent (s : String) : List String :=
  (if bracesBalanced s then [] else [braceWarning]) ++
    (if envsBalanced s then [] else [envWarning]) ++
      (if hasPlaceholder s then [placeholderWarning] else [])

/-! ### Generation output record (modelled from the spec) -/

/-- Modelled from the spec: assembly of the `LatexOutput` record returned by
a successful generation (backend latex routers/generator, absent from src/):
the rendered text, the requested template, the four element counts taken from
the analysis, and the accumulated validation warnings. -/
def generateOutput (analysis : DocumentAnalysis) (template : LatexTemplate)
    (rendered : String) (warnings : List String) (time : ℚ) : LatexOutput :=
  { content := rendered
    template := template
    sections_count := analysis.sections.length
    tables_count := analysis.tables.length
    equations_count := analysis.equations.length
    lists_count := analysis.lists.length
    validation_warnings := warnings
    generation_time := time }

/-! ### Concrete inputs used by witnesses and example theorems -/

/-- An unknown template identifier exercising the helper fallbacks. -/
def customId : String := "custom"

/-- A filename with a disallowed extension. -/
def badFileName : String := "paper.pdf"

/-- The structured author name line of the specification's example. -/
def nameLineC3 : String := "Name: A ; B"

/-- The structured author mail line of the specification's example. -/
def mailLineC3 : String := "Mail: a@x.com* ; b@x.com"

/-- A low-confidence detection candidate (a DetectionAmbiguous outcome). -/
def ambiguousCand : RawCandidate :=
  { content := "Possibly a heading"
    rawConfidence := mkRat 3 10
    reasoning := "weak label match only" }

/-- A rendered text with an unbalanced brace and a leftover placeholder. -/
def unbalancedLatex : String := "\\begin\x7bdocument\x7d [TABLE_1] \x7b"

/-- A candidate for the same equation reported by the symbol heuristic. -/
def eqCandA : EqCandidate :=
  { canonical := "E=mc^2"
    position := 2
    confidence := mkRat 7 10
    method := DetectorMethod.symbolHeuristic }

/-- A candidate for the same equation reported by math-markup extraction in
the adjacent paragraph, with higher confidence. -/
def eqCandB : EqCandidate :=
  { canonical := "E=mc^2"
    position := 3
    confidence := mkRat 9 10
    method := DetectorMethod.markup }

/-! ### Theorems -/

/-- Claim C5: the template catalog is exactly the fixed set of the three
identifiers ieee, acm and springer, and for each identifier the system
provides its human-readable name, its description, and its feature tags. -/
theorem template_catalog_complete :
    (∀ t : LatexTemplate,
      t = LatexTemplate.ieee ∨ t = LatexTemplate.acm ∨ t = LatexTemplate.springer) ∧
    LatexTemplate.ieee.id = "ieee" ∧
    LatexTemplate.acm.id = "acm" ∧
    LatexTemplate.springer.id = "springer" ∧
    getTemplateName LatexTemplate.ieee.id = "IEEE Conference Paper" ∧
    getTemplateName LatexTemplate.acm.id = "ACM Conference Paper" ∧
    getTemplateName LatexTemplate.springer.id = "Springer Nature Journal" ∧
    getTemplateDescription LatexTemplate.ieee.id ≠ "LaTeX document template" ∧
    getTemplateDescription LatexTemplate.acm.id ≠ "LaTeX document template" ∧
    getTemplateDescription LatexTemplate.springer.id ≠ "LaTeX document template" ∧
    getTemplateFeatures LatexTemplate.ieee.id =
      ["Two-column layout", "IEEE citation style", "Conference format"] ∧
    getTemplateFeatures LatexTemplate.acm.id =
      ["Modern styling", "Author affiliations", "ACM citation style"] ∧
    getTemplateFeatures LatexTemplate.springer.id =
      ["Journal format", "Mathematical typesetting", "Algorithm support"] := by
  refine ⟨fun t => ?_, ?_, ?_, ?_, ?_, ?_, ?_, ?_, ?_, ?_, ?_, ?_, ?_⟩
  · cases t
    · exact Or.inl rfl
    · exact Or.inr (Or.inl rfl)
    · exact Or.inr (Or.inr rfl)
  all_goals decide

/-- Claim C10: the template-description helpers are total over arbitrary
strings; on any identifier outside the catalog, `getTemplateName` returns the
uppercased input, `getTemplateDescription` the generic description, and
`getTemplateFeatures` the one-element custom list. -/
theorem templateHelpers_total (s : String)
    (h1 : s ≠ "ieee") (h2 : s ≠ "acm") (h3 : s ≠ "springer") :
    getTemplateName s = ⟨upperChars s.data⟩ ∧
    getTemplateDescription s = "LaTeX document template" ∧
    getTemplateFeatures s = ["Custom template"] := by
  refine ⟨?_, ?_, ?_⟩ <;>
    simp [getTemplateName, getTemplateDescription, getTemplateFeatures, h1, h2, h3]

/-- Witness for C10: the helpers applied to the unknown identifier
"custom". -/
theorem templateHelpers_total_witness :
    (customId ≠ "ieee" ∧ customId ≠ "acm" ∧ customId ≠ "springer") ∧
    getTemplateName customId = "CUSTOM" ∧
    getTemplateDescription customId = "LaTeX document template" ∧
    getTemplateFeatures customId = ["Custom template"] := by
  have h := templateHelpers_total customId (by decide) (by decide) (by decide)
  exact ⟨⟨by decide, by decide, by decide⟩, by decide, h.2.1, h.2.2⟩

/-- Claim C6: for every successful generation, the output record handed to
the rendering collaborator carries the rendered text as content, the
requested template, the four element counts drawn from the analysis, and the
validation warnings. -/
theorem generateOutput_contract (analysis : DocumentAnalysis)
    (template : LatexTemplate) (rendered : String) (warnings : List String)
    (time : ℚ) :
    (generateOutput analysis template rendered warnings time).content = rendered ∧
    (generateOutput analysis template rendered warnings time).template = template ∧
    (generateOutput analysis template rendered warnings time).sections_count =
      analysis.sections.length ∧
    (generateOutput analysis template rendered warnings time).tables_count =
      analysis.tables.length ∧
    (generateOutput analysis template rendered warnings time).equations_count =
      analysis.equations.length ∧
    (generateOutput analysis template rendered warnings time).lists_count =
      analysis.lists.length ∧
    (generateOutput analysis template rendered warnings time).validation_warnings =
      warnings :=
  ⟨rfl, rfl, rfl, rfl, rfl, rfl, rfl⟩

/-- Claim C8: `handleFileUpload` rejects every file whose lowercased name
does not end in ".docx" (with the file-type message) or whose size exceeds
50MB (with the size message), and such a file never reaches the upload
request. -/
theorem handleFileUpload_rejects_invalid (name : String) (size : Nat)
    (h : docxSuffix.data.isSuffixOf (lowerChars name.data) = false ∨
      50 * 1024 * 1024 < size) :
    handleFileUpload name size ≠ UploadAction.upload ∧
    (docxSuffix.data.isSuffixOf (lowerChars name.data) = false →
      handleFileUpload name size = UploadAction.setError fileTypeErrorMsg) ∧
    (docxSuffix.data.isSuffixOf (lowerChars name.data) = true →
      50 * 1024 * 1024 < size →
      handleFileUpload name size = UploadAction.setError fileSizeErrorMsg) := by
  unfold handleFileUpload
  cases hb : docxSuffix.data.isSuffixOf (lowerChars name.data) with
  | false => simp [hb]
  | true =>
    rcases h with h | h
    · rw [hb] at h
      cases h
    · simp [hb, h]

/-- Witness for C8: a .pdf upload is rejected with the file-type message. -/
theorem handleFileUpload_rejects_invalid_witness :
    (docxSuffix.data.isSuffixOf (lowerChars badFileName.data) = false ∨
      50 * 1024 * 1024 < 100) ∧
    (handleFileUpload badFileName 100 ≠ UploadAction.upload ∧
      (docxSuffix.data.isSuffixOf (lowerChars badFileName.data) = false →
        handleFileUpload badFileName 100 = UploadAction.setError fileTypeErrorMsg) ∧
      (docxSuffix.data.isSuffixOf (lowerChars badFileName.data) = true →
        50 * 1024 * 1024 < 100 →
        handleFileUpload badFileName 100 = UploadAction.setError fileSizeErrorMsg)) :=
  ⟨Or.inl (by decide),
    handleFileUpload_rejects_invalid badFileName 100 (Or.inl (by decide))⟩

/-- Claim C9: the confidence bar classifies the level as high exactly when
the confidence is at least 0.8, medium exactly when it is in [0.6, 0.8), low
otherwise, and displays the percentage rounded from 100 times the
confidence (the rounded value is within one half of it). -/
theorem renderConfidenceBar_levels (c : ℚ) :
    (confidenceLevel c = "high" ↔ mkRat 4 5 ≤ c) ∧
    (confidenceLevel c = "medium" ↔ mkRat 3 5 ≤ c ∧ c < mkRat 4 5) ∧
    (confidenceLevel c = "low" ↔ c < mkRat 3 5) ∧
    c * 100 - mkRat 1 2 < (confidencePercentage c : ℚ) ∧
    (confidencePercentage c : ℚ) ≤ c * 100 + mkRat 1 2 := by
  have hhalf : (mkRat 1 2 : ℚ) = 1/2 := by norm_num [Rat.mkRat_eq_div]
  have hround : c * 100 - mkRat 1 2 < (confidencePercentage c : ℚ) ∧
      (confidencePercentage c : ℚ) ≤ c * 100 + mkRat 1 2 := by
    unfold confidencePercentage jsRound
    rw [hhalf]
    constructor
    · have := Int.lt_floor_add_one (c * 100 + 1/2)
      push_cast at this ⊢
      linarith
    · have := Int.floor_le (c * 100 + 1/2)
      push_cast at this ⊢
      linarith
  unfold confidenceLevel
  split_ifs with h1 h2
  · refine ⟨⟨fun _ => h1, fun _ => rfl⟩, ⟨fun hs => ?_, fun hc => ?_⟩,
      ⟨fun hs => ?_, fun hc => ?_⟩, hround⟩
    · exact absurd hs (by decide)
    · exact absurd h1 (not_le.mpr hc.2)
    · exact absurd hs (by decide)
    · exact absurd h1 (not_le.mpr (hc.trans_le (by norm_num [Rat.mkRat_eq_div])))
  · refine ⟨⟨fun hs => ?_, fun hc => ?_⟩, ⟨fun _ => ⟨h2, not_le.mp h1⟩, fun _ => rfl⟩,
      ⟨fun hs => ?_, fun hc => ?_⟩, hround⟩
    · exact absurd hs (by decide)
    · exact absurd hc h1
    · exact absurd hs (by decide)
    · exact absurd h2 (not_le.mpr hc)
  · refine ⟨⟨fun hs => ?_, fun hc => ?_⟩, ⟨fun hs => ?_, fun hc => ?_⟩,
      ⟨fun _ => not_le.mp h2, fun _ => rfl⟩, hround⟩
    · exact absurd hs (by decide)
    · exact absurd hc h1
    · exact absurd hs (by decide)
    · exact absurd hc.1 h2

/-- Claim C3: on the structured author input `Name: A ; B` and
`Mail: a@x.com* ; b@x.com`, the structured strategy returns the two names,
the two emails with the trailing asterisk stripped from the stored email,
and flags index 0 as the corresponding author. -/
theorem detectAuthorsStructured_example :
    (detectAuthorsStructured nameLineC3 mailLineC3).names = ["A", "B"] ∧
    (detectAuthorsStructured nameLineC3 mailLineC3).emails =
      ["a@x.com", "b@x.com"] ∧
    (detectAuthorsStructured nameLineC3 mailLineC3).corresponding_indices = [0] :=
  ⟨by decide, by decide, by decide⟩

/-- Claim C4: every element assembled into the analysis output has a
confidence inside [0,1], and every detection candidate — in particular a
low-confidence DetectionAmbiguous one — appears in the output with its score
and reasoning; none is dropped. -/
theorem assembleElements_confidence (cands : List RawCandidate) :
    (∀ e ∈ assembleElements cands, 0 ≤ e.confidence ∧ e.confidence ≤ 1) ∧
    (assembleElements cands).length = cands.length ∧
    (∀ c ∈ cands,
      ({ content := c.content
         confidence := clampConfidence c.rawConfidence
         reasoning := c.reasoning } : DetectedElement) ∈ assembleElements cands) := by
  refine ⟨fun e he => ?_, by simp [assembleElements], fun c hc => ?_⟩
  · obtain ⟨c, _, rfl⟩ := List.mem_map.mp he
    unfold clampConfidence
    constructor
    · exact le_max_left 0 _
    · exact max_le (by norm_num) (min_le_left 1 _)
  · exact List.mem_map_of_mem _ hc

/-- Witness for C4: a single DetectionAmbiguous candidate with score 0.3 is
assembled, stays inside the output and keeps its bounds. -/
theorem assembleElements_confidence_witness :
    (∀ e ∈ assembleElements [ambiguousCand], 0 ≤ e.confidence ∧ e.confidence ≤ 1) ∧
    (assembleElements [ambiguousCand]).length = [ambiguousCand].length ∧
    (∀ c ∈ [ambiguousCand],
      ({ content := c.content
         confidence := clampConfidence c.rawConfidence
         reasoning := c.reasoning } : DetectedElement) ∈
        assembleElements [ambiguousCand]) :=
  assembleElements_confidence [ambiguousCand]

/-- Claim C7: for every input text, `validate` returns a possibly empty list
of textual warnings — each one of the three structural-issue messages — and,
being total, never raises; the list is empty exactly when grouping and
environments balance and no placeholder token is left. -/
theorem validateLatexContent_warnings (s : String) :
    (∀ w ∈ validateLatexContent s,
      w = braceWarning ∨ w = envWarning ∨ w = placeholderWarning) ∧
    (validateLatexContent s = [] ↔
      bracesBalanced s = true ∧ envsBalanced s = true ∧ hasPlaceholder s = false) := by
  unfold validateLatexContent
  cases hb : bracesBalanced s <;> cases he : envsBalanced s <;>
    cases hp : hasPlaceholder s <;> simp

/-- Witness for C7: the validator flags an unbalanced-brace, leftover-
placeholder text and approves a balanced one. -/
theorem validateLatexContent_warnings_witness :
    (∀ w ∈ validateLatexContent unbalancedLatex,
      w = braceWarning ∨ w = envWarning ∨ w = placeholderWarning) ∧
    (validateLatexContent unbalancedLatex = [] ↔
      bracesBalanced unbalancedLatex = true ∧ envsBalanced unbalancedLatex = true ∧
        hasPlaceholder unbalancedLatex = false) :=
  validateLatexContent_warnings unbalancedLatex

/-- The start indices of the assigned boundaries are exactly the heading
lines, in order. -/
theorem assignBoundaries_map_start (hs : List Nat) (d : Nat) :
    (assignBoundaries hs d).map SectionBoundary.start_line_index = hs := by
  induction hs with
  | nil => rfl
  | cons h rest ih =>
    cases rest with
    | nil => rfl
    | cons h2 rest2 => simpa [assignBoundaries] using ih

/-- Claim C1: boundary assignment gives every section a well-formed range,
`start_line_index ≤ end_line_index`, and the ranges of sibling sections
never overlap: each ends strictly before the next begins. -/
theorem assignBoundaries_wellformed (hs : List Nat) (d : Nat)
    (hsorted : List.Pairwise (· < ·) hs) (hle : ∀ h ∈ hs, h ≤ d) :
    (∀ s ∈ assignBoundaries hs d, s.start_line_index ≤ s.end_line_index) ∧
    List.Pairwise (fun a b => a.end_line_index < b.start_line_index)
      (assignBoundaries hs d) := by
  induction hs with
  | nil => exact ⟨fun s hs' => absurd hs' (by simp [assignBoundaries]), by
      simp [assignBoundaries]⟩
  | cons h rest ih =>
    cases rest with
    | nil =>
      refine ⟨fun s hs' => ?_, by simp [assignBoundaries]⟩
      simp only [assignBoundaries, List.mem_singleton] at hs'
      subst hs'
      exact hle h (List.mem_singleton_self h)
    | cons h2 rest2 =>
      obtain ⟨hlt, hsorted'⟩ := List.pairwise_cons.mp hsorted
      have hlt2 : h < h2 := hlt h2 (List.mem_cons_self h2 rest2)
      have hle' : ∀ x ∈ h2 :: rest2, x ≤ d :=
        fun x hx => hle x (List.mem_cons_of_mem h hx)
      obtain ⟨ihbounds, ihpair⟩ := ih hsorted' hle'
      constructor
      · intro s hs'
        rcases List.mem_cons.mp hs' with rfl | hs'
        · exact Nat.le_pred_of_lt hlt2
        · exact ihbounds s hs'
      · refine List.pairwise_cons.mpr ⟨fun b hb => ?_, ihpair⟩
        have hbstart : b.start_line_index ∈ h2 :: rest2 := by
          rw [← assignBoundaries_map_start (h2 :: rest2) d]
          exact List.mem_map_of_mem SectionBoundary.start_line_index hb
        have hpos : 0 < h2 := Nat.lt_of_le_of_lt (Nat.zero_le h) hlt2
        rcases List.mem_cons.mp hbstart with heq | hmem
        · rw [heq]
          exact Nat.pred_lt (Nat.pos_iff_ne_zero.mp hpos)
        · have : h2 < b.start_line_index :=
            List.rel_of_pairwise_cons hsorted' hmem
          exact Nat.lt_of_le_of_lt (Nat.pred_le h2) this

/-- Witness for C1: boundaries assigned from heading lines 0, 3 and 7 in an
11-line document. -/
theorem assignBoundaries_wellformed_witness :
    (List.Pairwise (· < ·) [0, 3, 7] ∧ ∀ h ∈ [0, 3, 7], h ≤ 10) ∧
    ((∀ s ∈ assignBoundaries [0, 3, 7] 10,
        s.start_line_index ≤ s.end_line_index) ∧
      List.Pairwise (fun a b => a.end_line_index < b.start_line_index)
        (assignBoundaries [0, 3, 7] 10)) :=
  ⟨⟨by decide, by decide⟩,
    assignBoundaries_wellformed [0, 3, 7] 10 (by decide) (by decide)⟩

/-- Claim C2: two candidates with the same canonical content at the same or
adjacent position merge to exactly one entry, the one of highest confidence;
a confidence tie is broken by detector priority (markup > delimiter >
contextual > symbol heuristic). -/
theorem mergeCandidates_pair_dedup (a b : EqCandidate)
    (h : sameGroupB a b = true) :
    mergeCandidates [a, b] = [if betterB b a then b else a] ∧
    (betterB b a = true ↔
      (a.confidence < b.confidence ∨
        (b.confidence = a.confidence ∧
          methodPriority a.method < methodPriority b.method))) := by
  constructor
  · simp [mergeCandidates, mergeCandidatesAux, List.filter, h]
  · simp [betterB, Bool.or_eq_true, Bool.and_eq_true, decide_eq_true_eq]

/-- Witness for C2: a symbol-heuristic candidate at paragraph 2 and a
markup candidate for the same canonical content at the adjacent paragraph 3
merge to the single higher-confidence markup candidate. -/
theorem mergeCandidates_pair_dedup_witness :
    sameGroupB eqCandA eqCandB = true ∧
    (mergeCandidates [eqCandA, eqCandB] =
        [if betterB eqCandB eqCandA then eqCandB else eqCandA] ∧
      (betterB eqCandB eqCandA = true ↔
        (eqCandA.confidence < eqCandB.confidence ∨
          (eqCandB.confidence = eqCandA.confidence ∧
            methodPriority eqCandA.method < methodPriority eqCandB.method)))) :=
  ⟨by decide, mergeCandidates_pair_dedup eqCandA eqCandB (by decide)⟩

end DocxAnalyzer
